import Mathlib

/-!
Shallow embedding of `.agents/skills/check-work-chunk/scripts/verify_work_chunk.py`.

The script orchestrates three external CLI agents (codex, gemini, claude),
captures each one's output in a transcript file, extracts a PASS/FAIL/UNCLEAR
verdict from the output text, aggregates the verdicts and maps the overall
verdict to a process exit status.

Modelling conventions:
- Python strings are Lean `String`s; the regular-expression character classes
  `\w` and `\s` and case folding are modelled over ASCII (the script only ever
  matches the ASCII tokens `VERDICT`, `PASS`, `FAIL`, `UNCLEAR`).
- Durations (Python floats holding elapsed seconds) are modelled as `Rat`;
  the only duration value any claim depends on is the literal `0.0`.
- Subprocess behaviour is an explicit environment: each invocation attempt is
  described by the (return code, combined output text, duration) it produces.
-/

namespace VerifyWorkChunk

/-- ASCII model of Python regex `\w` (IGNORECASE, str pattern): letters,
digits and underscore. -/
def isWordChar (c : Char) : Bool := c.isAlphanum || c == '_'

/-- ASCII model of Python regex `\s`: space, tab, newline, vertical tab,
form feed, carriage return. -/
def isSpaceChar (c : Char) : Bool :=
  c == ' ' || c == '\t' || c == '\n' || c == '\x0b' || c == '\x0c' || c == '\r'

/-- Case-insensitive character comparison (ASCII case folding), the model of
`re.IGNORECASE` on a single character. -/
def charIEq (p c : Char) : Bool := p.toLower == c.toLower

/-- Match a literal pattern case-insensitively at the head of the input,
returning the rest of the input on success. -/
def matchLitCI : List Char → List Char → Option (List Char)
  | [], cs => some cs
  | _ :: _, [] => none
  | p :: ps, c :: cs => if charIEq p c then matchLitCI ps cs else none

/-- Greedy `\s*`: drop the maximal whitespace run.  In the pattern the run is
always followed by a non-whitespace literal, so greedy matching with
backtracking coincides with dropping the maximal run. -/
def dropSpaces : List Char → List Char
  | [] => []
  | c :: cs => if isSpaceChar c then dropSpaces cs else c :: cs

/-- Trailing `\b` after a word character: holds at end of input or when the
next character is not a word character. -/
def boundaryAfter : List Char → Bool
  | [] => true
  | c :: _ => !(isWordChar c)

/-- Match the alternation `(PASS|FAIL|UNCLEAR)\b` at the head of the input.
On success the result is `group(1).upper()`: the group matched one of the
three literals case-insensitively, so its uppercasing is that literal. -/
def matchValue (cs : List Char) : Option String :=
  match matchLitCI "PASS".data cs with
  | some rest => if boundaryAfter rest then some "PASS" else none
  | none =>
  match matchLitCI "FAIL".data cs with
  | some rest => if boundaryAfter rest then some "FAIL" else none
  | none =>
  match matchLitCI "UNCLEAR".data cs with
  | some rest => if boundaryAfter rest then some "UNCLEAR" else none
  | none => none

/-- Match `VERDICT\s*:\s*(PASS|FAIL|UNCLEAR)\b` at the head of the input.
The leading `\b` of the pattern is checked by the caller (it depends on the
character preceding this position). -/
def matchAt (cs : List Char) : Option String :=
  match matchLitCI "VERDICT".data cs with
  | none => none
  | some r1 =>
    match dropSpaces r1 with
    | ':' :: r2 => matchValue (dropSpaces r2)
    | _ => none

/-- Left-to-right scan of `re.search`: try the pattern at each position whose
preceding character is not a word character (the leading `\b`; the pattern
starts with the word character `V`), first match wins.  `prev` records
whether the previous character is a word character (`false` at the start of
the string). -/
def scanVerdict : Bool → List Char → Option String
  | _, [] => none
  | prev, c :: cs =>
    match (if prev then none else matchAt (c :: cs)) with
    | some v => some v
    | none => scanVerdict (isWordChar c) cs

/-- `_parse_verdict`: search the text for
`\bVERDICT\s*:\s*(PASS|FAIL|UNCLEAR)\b` (IGNORECASE); return the uppercased
group on a match and `"UNCLEAR"` otherwise. -/
def _parse_verdict (text_out : String) : String :=
  match scanVerdict false text_out.data with
  | none => "UNCLEAR"
  | some v => v

/-! Specification-side rendering of the verdict parser, following the spec's
words: the first (leftmost by start index) case-insensitive occurrence of the
token `VERDICT`, optional whitespace, a colon, optional whitespace, then one
of PASS/FAIL/UNCLEAR as a whole word, decides the result; no occurrence
yields UNCLEAR. -/

/-- Word boundary before position `i` of the text (with `prev` the character
class of the character preceding the whole text, `false` for a string
start): position `0` is a boundary iff the text is not preceded by a word
character; position `j+1` is a boundary iff character `j` is not a word
character. -/
def boundaryOK (prev : Bool) (cs : List Char) : Nat → Bool
  | 0 => !prev
  | j + 1 => !(isWordChar (cs.getD j ' '))

/-- The occurrence-by-index search the spec describes: among all start
positions, in increasing order, return the value of the first position where
the word boundary holds and the token sequence matches. -/
def specScan (prev : Bool) (cs : List Char) : Option String :=
  (List.range cs.length).findSome?
    (fun i => if boundaryOK prev cs i then matchAt (cs.drop i) else none)

/-- The verdict the spec text assigns to an input. -/
def specVerdict (s : String) : String :=
  match specScan false s.data with
  | none => "UNCLEAR"
  | some v => v

/-- `_overall`: drop falsy (empty-string) verdict values, then: empty →
UNCLEAR, any FAIL → FAIL, all PASS → PASS, otherwise UNCLEAR.  The Python
dict is modelled as an association list; only its values are inspected. -/
def _overall (verdicts : List (String × String)) : String :=
  let vals := (verdicts.map Prod.snd).filter (fun v => !(v == ""))
  if vals.isEmpty then "UNCLEAR"
  else if vals.any (fun v => v == "FAIL") then "FAIL"
  else if vals.all (fun v => v == "PASS") then "PASS"
  else "UNCLEAR"

/-- `build_prompt`: the f-string template with `chunk` and `file_path`
substituted (Python renders the int `chunk` with `str`). -/
def build_prompt (file_path : String) (chunk : Int) : String :=
  "You are an automated code reviewer.\n\nTask: determine whether chunk #"
    ++ toString chunk ++ " described in " ++ file_path
    ++ " has been implemented correctly in this repository.\n\nRules:\n- DO NOT edit any code, do not apply patches, do not write files, do not commit.\n- You MAY read files and run scripts/tests/linters to verify.\n- Locate the exact section for chunk #"
    ++ toString chunk ++ " inside " ++ file_path
    ++ " yourself (e.g., using search/grep) and restate it briefly (1-3 sentences) before evaluating.\n- Be strict: if requirements are ambiguous or partially implemented, say UNCLEAR or FAIL.\n- Report with the exact format:\n\nVERDICT: PASS|FAIL|UNCLEAR\nCONFIDENCE: 0-100\nEVIDENCE:\n- bullet points referencing specific files/functions/lines (or test outputs)\nGAPS:\n- bullet points of what's missing/incorrect (if any)\nCOMMANDS_RUN:\n- bullet list (or 'none')\n"

/-- The codex command built in `main` (`codex` is the resolved executable). -/
def codexCmd (codex prompt : String) : List String :=
  [codex, "--disable", "skills", "--dangerously-bypass-approvals-and-sandbox",
   "exec", prompt]

/-- `_gemini_cmd`: the two candidate gemini invocations, tried in order. -/
def _gemini_cmd (gemini prompt : String) : List (List String) :=
  [[gemini, "--approval-mode", "yolo", prompt],
   [gemini, "--yolo", prompt]]

/-- The claude command built in `main`. -/
def claudeCmd (claude prompt : String) : List String :=
  [claude, "-p", prompt, "--dangerously-skip-permissions", "--tools",
   "Bash,Read"]

/-- Substring test (Python's `in` on strings), over character lists. -/
def hasSubstr (pat : List Char) : List Char → Bool
  | [] => pat.isEmpty
  | c :: cs => pat.isPrefixOf (c :: cs) || hasSubstr pat cs

/-- The retry test in the gemini loop: the lowercased output contains one of
the unknown-flag substrings.  (`(out or "").lower()` is modelled by
lowercasing characterwise, ASCII case folding.) -/
def containsUnknownFlag (out : String) : Bool :=
  let lower := out.data.map Char.toLower
  hasSubstr "unknown argument".data lower
    || hasSubstr "unknown arguments".data lower
    || hasSubstr "unknown option".data lower

/-! ### Transcript files

A transcript file's content is a `String`.  `run_streaming` opens the
transcript with mode `"w"` (truncating any existing content); the gemini
retry separator is written with mode `"a"` (appending). -/

/-- Opening a file with mode `"w"` replaces its content. -/
def fileWrite (_old new : String) : String := new

/-- Opening a file with mode `"a"` appends to its content. -/
def fileAppend (old more : String) : String := old ++ more

/-- The command-line header `run_streaming` writes first.  The source uses
`shlex.join`; shell quoting of individual arguments is elided here and the
arguments are joined with single spaces. -/
def cmdHeader (cmd : List String) : String :=
  "$ " ++ String.intercalate " " cmd ++ "\n\n"

/-- Content `run_streaming` leaves in the transcript for a completed
invocation: the header then the streamed output (the timeout notice line,
written only on expiry, is not modelled; no claim concerns it). -/
def runTranscript (cmd : List String) (out : String) : String :=
  cmdHeader cmd ++ out

/-- The separator line written before the gemini fallback attempt. -/
def retrySeparator : String := "\n\n===== RETRY (fallback flags) =====\n\n"

/-! ### Environment and the `main` orchestration -/

/-- What one `run_streaming` invocation returns for an attempt, supplied by
the environment: return code, accumulated output text, duration. -/
structure RunOutcome where
  rc : Int
  out : String
  dur : Rat
deriving DecidableEq, Repr

/-- The environment one `main` run executes in: command-line inputs, which
executables `shutil.which` resolves, and the outcome of each possible
invocation attempt. -/
structure Env where
  filePath : String
  chunk : Int
  fileExists : Bool
  codexFound : Bool
  geminiFound : Bool
  claudeFound : Bool
  codexRun : RunOutcome
  geminiRun1 : RunOutcome
  geminiRun2 : RunOutcome
  claudeRun : RunOutcome
deriving DecidableEq, Repr

/-- Per-agent record assembled by `main`: entries of `rcs`, `durations`,
`verdicts`, the output text of the last attempt (the local the verdict is
parsed from), the transcript file's final content, and how many invocation
attempts were made. -/
structure AgentRecord where
  rc : Int
  dur : Rat
  verdict : String
  out : String
  transcript : String
  attempts : Nat
deriving DecidableEq, Repr

/-- The codex section of `main`: if found, run the single codex command and
parse the verdict only when the return code is zero; otherwise write the
not-found transcript and record rc 127, duration 0, verdict UNCLEAR. -/
def codexRecord (e : Env) (prompt : String) : AgentRecord :=
  if e.codexFound then
    let r := e.codexRun
    { rc := r.rc, dur := r.dur,
      verdict := if r.rc == 0 then _parse_verdict r.out else "UNCLEAR",
      out := r.out,
      transcript := fileWrite "" (runTranscript (codexCmd "codex" prompt) r.out),
      attempts := 1 }
  else
    { rc := 127, dur := 0, verdict := "UNCLEAR", out := "",
      transcript := fileWrite "" "codex: not found on PATH\n", attempts := 0 }

/-- The gemini attempt loop of `main`, unrolled over the exactly two
candidates of `_gemini_cmd`: run the first candidate; stop if it exits
zero; if its output shows an unknown-flag error, append the separator to
the transcript and run the second candidate (whose `run_streaming` call
reopens the transcript with mode `"w"`); otherwise stop.  The record fields
come from the last attempt made. -/
def geminiPhase (e : Env) (prompt : String) : AgentRecord :=
  let cmds := _gemini_cmd "gemini" prompt
  let cmd1 := cmds.getD 0 []
  let cmd2 := cmds.getD 1 []
  let r1 := e.geminiRun1
  let t1 := fileWrite "" (runTranscript cmd1 r1.out)
  if r1.rc == 0 then
    { rc := r1.rc, dur := r1.dur,
      verdict := if r1.rc == 0 then _parse_verdict r1.out else "UNCLEAR",
      out := r1.out, transcript := t1, attempts := 1 }
  else if containsUnknownFlag r1.out then
    let t2 := fileAppend t1 retrySeparator
    let r2 := e.geminiRun2
    let t3 := fileWrite t2 (runTranscript cmd2 r2.out)
    { rc := r2.rc, dur := r2.dur,
      verdict := if r2.rc == 0 then _parse_verdict r2.out else "UNCLEAR",
      out := r2.out, transcript := t3, attempts := 2 }
  else
    { rc := r1.rc, dur := r1.dur,
      verdict := if r1.rc == 0 then _parse_verdict r1.out else "UNCLEAR",
      out := r1.out, transcript := t1, attempts := 1 }

/-- The gemini section of `main`: the loop when found, the not-found record
otherwise. -/
def geminiRecord (e : Env) (prompt : String) : AgentRecord :=
  if e.geminiFound then geminiPhase e prompt
  else
    { rc := 127, dur := 0, verdict := "UNCLEAR", out := "",
      transcript := fileWrite "" "gemini: not found on PATH\n", attempts := 0 }

/-- The claude section of `main`, in analogy with the codex section. -/
def claudeRecord (e : Env) (prompt : String) : AgentRecord :=
  if e.claudeFound then
    let r := e.claudeRun
    { rc := r.rc, dur := r.dur,
      verdict := if r.rc == 0 then _parse_verdict r.out else "UNCLEAR",
      out := r.out,
      transcript := fileWrite "" (runTranscript (claudeCmd "claude" prompt) r.out),
      attempts := 1 }
  else
    { rc := 127, dur := 0, verdict := "UNCLEAR", out := "",
      transcript := fileWrite "" "claude: not found on PATH\n", attempts := 0 }

/-- All three agent records, in the fixed sequence `main` runs them. -/
def mainRecords (e : Env) : List (String × AgentRecord) :=
  let prompt := build_prompt e.filePath e.chunk
  [("codex", codexRecord e prompt),
   ("gemini", geminiRecord e prompt),
   ("claude", claudeRecord e prompt)]

/-- The `verdicts` dict `main` passes to `_overall`. -/
def mainVerdicts (e : Env) : List (String × String) :=
  (mainRecords e).map (fun p => (p.1, p.2.verdict))

/-- Exit status mapping at the end of `main`: PASS→0, FAIL→1, otherwise 3. -/
def exitFor (overall : String) : Int :=
  if overall == "PASS" then 0 else if overall == "FAIL" then 1 else 3

/-- Result of one `main` run: the exit status and the per-agent records
(empty when `main` returned before invoking any agent). -/
structure MainResult where
  exitCode : Int
  records : List (String × AgentRecord)
deriving DecidableEq, Repr

/-- `main`: abort with exit status 2 when the plan/document file does not
exist (before any agent is invoked); otherwise run all three agents,
aggregate with `_overall` and map the overall verdict to the exit status. -/
def main (e : Env) : MainResult :=
  if !e.fileExists then { exitCode := 2, records := [] }
  else
    { exitCode := exitFor (_overall (mainVerdicts e)),
      records := mainRecords e }

/-! ### `run_streaming` as exception-level control flow

For the safety claim about `run_streaming` the function is modelled at the
level of the exceptions its primitives can raise, as an `Except`
computation: `out_path.parent.mkdir` (line 106), `out_path.open("w")`
(line 113) and every `fh.write` on the transcript (lines 114, 129, 141) can
raise `OSError` and stand outside any `try`; `subprocess.Popen` raises
`FileNotFoundError` when the executable cannot be found but can also raise
`PermissionError` or another `OSError` (e.g. the file exists but is not
executable), of which the source catches only `FileNotFoundError`;
`proc.wait(timeout=...)` raises `TimeoutExpired` on expiry; the
`proc.terminate(); proc.wait(10)` pair in the timeout handler may raise an
arbitrary `Exception`, caught by its `except Exception`.  `proc.kill()`
followed by an untimed `proc.wait()` on an owned child does not raise.  The
source's `try/except` clauses become the matches below; a branch producing
`.error` models an exception escaping `run_streaming`. -/

/-- Behaviour of a successfully launched subprocess, as the environment
presents it to `run_streaming`. -/
structure ProcSpec where
  out : String
  dur : Rat
  waitRc : Option Int
  termRc : Option Int
  killRc : Int
deriving DecidableEq, Repr

/-- Behaviour of the filesystem at the transcript path: whether the parent
`mkdir` (line 106), the `open("w")` (line 113), the header write (line
114) and the writes inside the exception handlers (the not-found message,
line 129, and the timeout notice, line 141) raise `OSError`. -/
structure FsSpec where
  mkdirRaises : Bool
  openRaises : Bool
  headerWriteRaises : Bool
  handlerWriteRaises : Bool
deriving DecidableEq, Repr

/-- Launch behaviour of `subprocess.Popen` for the given command:
executable absent (`FileNotFoundError`), another launch failure
(`PermissionError` or another `OSError`), or a running process. -/
inductive Launch
  | notFound
  | raiseOther
  | ok (p : ProcSpec)
deriving DecidableEq, Repr

/-- The Python exceptions relevant to `run_streaming`. -/
inductive PyExn
  | fileNotFoundError
  | permissionError
  | timeoutExpired
  | osError
  | otherError
deriving DecidableEq, Repr

/-- `subprocess.Popen`: `FileNotFoundError` when the executable cannot be
found, `PermissionError` (representative of the other launch-time
`OSError`s) for another launch failure, else the process. -/
def popen (l : Launch) : Except PyExn ProcSpec :=
  match l with
  | .notFound => .error .fileNotFoundError
  | .raiseOther => .error .permissionError
  | .ok p => .ok p

/-- `proc.wait(timeout=timeout_s)`: the return code, or `TimeoutExpired`. -/
def waitWithTimeout (p : ProcSpec) : Except PyExn Int :=
  match p.waitRc with
  | some rc => .ok rc
  | none => .error .timeoutExpired

/-- `proc.terminate(); proc.wait(timeout=10)` in the timeout handler: the
return code, or some exception. -/
def terminateAndWait (p : ProcSpec) : Except PyExn Int :=
  match p.termRc with
  | some rc => .ok rc
  | none => .error .otherError

/-- `run_streaming`: the control flow of the source function over the
primitives above, in source order.  The parent `mkdir`, the transcript
`open("w")` and the header write are performed before any `try` and
propagate their `OSError`.  Around the launch, `except FileNotFoundError`
writes the not-found message (a write that can itself raise) and returns
the `(127, message, 0.0)` triple; any other launch exception propagates.
`except subprocess.TimeoutExpired` around the wait writes the timeout
notice (uncaught, can raise) and enters the termination handler, whose own
`except Exception` falls back to `proc.kill(); proc.wait()`. -/
def run_streaming (label : String) (cmd : List String) (fs : FsSpec)
    (l : Launch) : Except PyExn (Int × String × Rat) :=
  if fs.mkdirRaises then .error .osError
  else if fs.openRaises then .error .osError
  else if fs.headerWriteRaises then .error .osError
  else
    match popen l with
    | .error .fileNotFoundError =>
        if fs.handlerWriteRaises then .error .osError
        else
          .ok (127, label ++ ": command not found: " ++ cmd.headD "" ++ "\n",
            0)
    | .error e => .error e
    | .ok p =>
        match waitWithTimeout p with
        | .ok rc => .ok (rc, p.out, p.dur)
        | .error .timeoutExpired =>
            if fs.handlerWriteRaises then .error .osError
            else
              match terminateAndWait p with
              | .ok rc => .ok (rc, p.out, p.dur)
              | .error _ => .ok (p.killRc, p.out, p.dur)
        | .error e => .error e

/-- Filesystem behaviour where every transcript operation succeeds. -/
def fsAllOk : FsSpec :=
  { mkdirRaises := false, openRaises := false, headerWriteRaises := false,
    handlerWriteRaises := false }

/-- Filesystem behaviour where the parent-directory creation raises. -/
def fsMkdirFails : FsSpec :=
  { mkdirRaises := true, openRaises := false, headerWriteRaises := false,
    handlerWriteRaises := false }

/-- Filesystem behaviour where only the handler writes raise. -/
def fsHandlerWriteFails : FsSpec :=
  { mkdirRaises := false, openRaises := false, headerWriteRaises := false,
    handlerWriteRaises := true }

/-- A process that never finishes within the timeout and responds to the
graceful termination signal. -/
def procHangs : ProcSpec :=
  { out := "", dur := 1, waitRc := none, termRc := some (-15), killRc := -9 }

/-! ## Theorems -/

/-- When every verdict value is one of the three enumeration constants, the
falsy-value filter in `_overall` keeps every value. -/
lemma filter_nonempty_id (l : List (String × String))
    (h : ∀ p ∈ l, p.2 = "PASS" ∨ p.2 = "FAIL" ∨ p.2 = "UNCLEAR") :
    (l.map Prod.snd).filter (fun v => !(v == "")) = l.map Prod.snd := by
  apply List.filter_eq_self.mpr
  intro v hv
  rcases List.mem_map.mp hv with ⟨p, hp, rfl⟩
  rcases h p hp with h1 | h1 | h1 <;> rw [h1] <;> decide

/-- Claim C1: on a finite mapping of agent names to verdicts (each value one
of PASS, FAIL, UNCLEAR), `_overall` returns UNCLEAR on the empty mapping,
FAIL as soon as some value is FAIL, PASS when the mapping is non-empty and
every value is PASS, and UNCLEAR for any non-empty no-FAIL mapping that is
not all PASS. -/
theorem C1_overall_aggregation :
    _overall [] = "UNCLEAR" ∧
    ∀ l : List (String × String),
      (∀ p ∈ l, p.2 = "PASS" ∨ p.2 = "FAIL" ∨ p.2 = "UNCLEAR") →
      ((∃ p ∈ l, p.2 = "FAIL") → _overall l = "FAIL") ∧
      (l ≠ [] → (∀ p ∈ l, p.2 = "PASS") → _overall l = "PASS") ∧
      (l ≠ [] → (∀ p ∈ l, p.2 ≠ "FAIL") → (∃ p ∈ l, p.2 ≠ "PASS") →
        _overall l = "UNCLEAR") := by
  refine ⟨rfl, ?_⟩
  intro l hl
  have hfilter := filter_nonempty_id l hl
  refine ⟨?_, ?_, ?_⟩
  · rintro ⟨p, hp, hfail⟩
    have hne : l.map Prod.snd ≠ [] := by
      simp only [ne_eq, List.map_eq_nil_iff]
      exact List.ne_nil_of_mem hp
    have hany : (l.map Prod.snd).any (fun v => v == "FAIL") = true :=
      List.any_eq_true.mpr ⟨p.2, List.mem_map_of_mem Prod.snd hp,
        by rw [hfail]; decide⟩
    simp only [_overall, hfilter, List.isEmpty_eq_true, hne, if_false, hany,
      if_true]
  · intro hne hpass
    have hne2 : l.map Prod.snd ≠ [] := by
      simp only [ne_eq, List.map_eq_nil_iff]; exact hne
    have hany : (l.map Prod.snd).any (fun v => v == "FAIL") = false := by
      simp only [List.any_eq_false]
      intro v hv
      rcases List.mem_map.mp hv with ⟨p, hp, rfl⟩
      rw [hpass p hp]; decide
    have hall : (l.map Prod.snd).all (fun v => v == "PASS") = true := by
      simp only [List.all_eq_true]
      intro v hv
      rcases List.mem_map.mp hv with ⟨p, hp, rfl⟩
      rw [hpass p hp]; decide
    simp only [_overall, hfilter, List.isEmpty_eq_true, hne2, if_false, hany,
      Bool.false_eq_true, hall, if_true]
  · intro hne hnofail hnotall
    have hne2 : l.map Prod.snd ≠ [] := by
      simp only [ne_eq, List.map_eq_nil_iff]; exact hne
    have hany : (l.map Prod.snd).any (fun v => v == "FAIL") = false := by
      simp only [List.any_eq_false]
      intro v hv
      rcases List.mem_map.mp hv with ⟨p, hp, rfl⟩
      have := hnofail p hp
      simpa using this
    have hall : (l.map Prod.snd).all (fun v => v == "PASS") = false := by
      rcases hnotall with ⟨p, hp, hnp⟩
      apply List.all_eq_false.mpr
      exact ⟨p.2, List.mem_map_of_mem Prod.snd hp, by simpa using hnp⟩
    simp only [_overall, hfilter, List.isEmpty_eq_true, hne2, if_false, hany,
      Bool.false_eq_true, hall, if_true]

/-- Closed instance of C1 at concrete mappings, discharging each
hypothesis. -/
theorem C1_overall_aggregation_witness :
    _overall [("codex", "FAIL"), ("gemini", "PASS")] = "FAIL" ∧
    _overall [("codex", "PASS"), ("gemini", "PASS")] = "PASS" ∧
    _overall [("codex", "PASS"), ("gemini", "UNCLEAR")] = "UNCLEAR" :=
  ⟨(C1_overall_aggregation.2 [("codex", "FAIL"), ("gemini", "PASS")]
      (by decide)).1 (by decide),
   ((C1_overall_aggregation.2 [("codex", "PASS"), ("gemini", "PASS")]
      (by decide)).2.1 (by decide) (by decide)),
   ((C1_overall_aggregation.2 [("codex", "PASS"), ("gemini", "UNCLEAR")]
      (by decide)).2.2 (by decide) (by decide) (by decide))⟩

/-- Filtering the pairs on truthy second component commutes with projecting
the second components. -/
lemma mapSnd_filter (l : List (String × String)) :
    (l.filter (fun p => !(p.2 == ""))).map Prod.snd
      = (l.map Prod.snd).filter (fun v => !(v == "")) := by
  induction l with
  | nil => rfl
  | cons a l ih =>
    by_cases h : (!(a.2 == "")) = true
    · simp [List.filter_cons, h, ih]
    · simp [List.filter_cons, h, ih]

/-- Claim C10: `_overall` ignores entries whose value is the empty string —
aggregating a mapping equals aggregating its restriction to non-empty
values; all-empty mappings yield UNCLEAR and one PASS among empty strings
yields PASS. -/
theorem C10_overall_ignores_falsy :
    (∀ l : List (String × String),
      _overall l = _overall (l.filter (fun p => !(p.2 == "")))) ∧
    _overall [("a", ""), ("b", "")] = "UNCLEAR" ∧
    _overall [("a", "PASS"), ("b", ""), ("c", "")] = "PASS" := by
  refine ⟨?_, by decide, by decide⟩
  intro l
  simp only [_overall, mapSnd_filter, List.filter_filter, Bool.and_self]

/-- `findSome?` after a `map` is `findSome?` of the composition. -/
lemma findSome?_map {α β γ : Type} (g : α → β) (f : β → Option γ)
    (l : List α) : (l.map g).findSome? f = l.findSome? (fun a => f (g a)) := by
  induction l with
  | nil => rfl
  | cons a l ih => simp only [List.map_cons, List.findSome?, ih]

/-- The pattern functions tried at the positions shifted by one are the
pattern functions of the tail with the boundary flag of its head. -/
lemma boundary_shift (prev : Bool) (c : Char) (cs : List Char) (i : Nat) :
    (if boundaryOK prev (c :: cs) (i + 1) then matchAt ((c :: cs).drop (i + 1))
      else none)
      = (if boundaryOK (isWordChar c) cs i then matchAt (cs.drop i)
          else none) := by
  cases i with
  | zero => rfl
  | succ j => rfl

/-- The sequential scan of `re.search` agrees with the position-by-position
leftmost-occurrence search, for every boundary flag. -/
lemma scanVerdict_eq_specScan (cs : List Char) :
    ∀ prev, scanVerdict prev cs = specScan prev cs := by
  induction cs with
  | nil => intro prev; rfl
  | cons c cs ih =>
    intro prev
    unfold specScan
    rw [List.length_cons, List.range_succ_eq_map, List.findSome?,
      findSome?_map]
    have hshift :
        (fun i => if boundaryOK prev (c :: cs) (i + 1)
            then matchAt ((c :: cs).drop (i + 1)) else none)
          = (fun i => if boundaryOK (isWordChar c) cs i
              then matchAt (cs.drop i) else none) :=
      funext (boundary_shift prev c cs)
    rw [hshift]
    cases prev with
    | true =>
      show scanVerdict true (c :: cs) = _
      unfold scanVerdict
      simp only [if_true, boundaryOK, Bool.not_true]
      rw [ih (isWordChar c)]
      rfl
    | false =>
      show scanVerdict false (c :: cs) = _
      unfold scanVerdict
      simp only [if_false, boundaryOK, Bool.not_false, List.drop_zero]
      cases hM : matchAt (c :: cs) with
      | some v => rfl
      | none => rw [ih (isWordChar c)]; rfl

/-- Claim C2: `_parse_verdict` returns the value of the first,
case-insensitive occurrence anywhere in the text of `VERDICT`, optional
whitespace, a colon, optional whitespace, then PASS/FAIL/UNCLEAR as a whole
word, and UNCLEAR when no such occurrence exists (including invalid values
such as `VERDICT: MAYBE`). -/
theorem C2_parse_verdict_first_occurrence :
    (∀ s : String, _parse_verdict s = specVerdict s) ∧
    _parse_verdict "... verdict:   pass ..." = "PASS" ∧
    _parse_verdict "no token here" = "UNCLEAR" ∧
    _parse_verdict "VERDICT: MAYBE" = "UNCLEAR" ∧
    _parse_verdict "VERDICT: FAIL then VERDICT: PASS" = "FAIL" := by
  refine ⟨?_, by decide, by decide, by decide, by decide⟩
  intro s
  unfold _parse_verdict specVerdict
  rw [scanVerdict_eq_specScan]

/-! Concrete run outcomes and environments used by the closed witness
instances. -/

/-- An attempt that succeeds and prints a PASS verdict. -/
def rPass : RunOutcome := { rc := 0, out := "VERDICT: PASS\n", dur := 1 }

/-- An attempt that crashes while printing a PASS verdict. -/
def rCrash : RunOutcome := { rc := 1, out := "VERDICT: PASS\n", dur := 1 }

/-- An attempt rejected because a flag is not recognised. -/
def rUnknownFlag : RunOutcome :=
  { rc := 1, out := "unknown option: --approval-mode\n", dur := 1 }

/-- Environment where every agent is found and every attempt crashes. -/
def envAllCrash : Env :=
  { filePath := "plan.md", chunk := 1, fileExists := true,
    codexFound := true, geminiFound := true, claudeFound := true,
    codexRun := rCrash, geminiRun1 := rCrash, geminiRun2 := rCrash,
    claudeRun := rCrash }

/-- Environment where every agent is found and reports PASS. -/
def envAllPass : Env :=
  { filePath := "plan.md", chunk := 1, fileExists := true,
    codexFound := true, geminiFound := true, claudeFound := true,
    codexRun := rPass, geminiRun1 := rPass, geminiRun2 := rPass,
    claudeRun := rPass }

/-- Environment whose plan/document file does not exist. -/
def envMissingFile : Env :=
  { filePath := "missing.md", chunk := 1, fileExists := false,
    codexFound := true, geminiFound := true, claudeFound := true,
    codexRun := rPass, geminiRun1 := rPass, geminiRun2 := rPass,
    claudeRun := rPass }

/-- Environment where gemini's first attempt hits the unknown-flag error and
the fallback attempt succeeds. -/
def envGeminiRetry : Env :=
  { filePath := "plan.md", chunk := 1, fileExists := true,
    codexFound := false, geminiFound := true, claudeFound := false,
    codexRun := rPass, geminiRun1 := rUnknownFlag, geminiRun2 := rPass,
    claudeRun := rPass }

/-- Environment where no agent executable is on the search path. -/
def envNoneFound : Env :=
  { filePath := "plan.md", chunk := 1, fileExists := true,
    codexFound := false, geminiFound := false, claudeFound := false,
    codexRun := rPass, geminiRun1 := rPass, geminiRun2 := rPass,
    claudeRun := rPass }

/-- Whatever branch the gemini attempt loop takes, the recorded verdict is
computed from the last attempt's return code and output. -/
lemma geminiPhase_verdict (e : Env) (prompt : String) :
    (geminiPhase e prompt).verdict
      = (if (geminiPhase e prompt).rc == 0
          then _parse_verdict (geminiPhase e prompt).out else "UNCLEAR") := by
  unfold geminiPhase
  by_cases h1 : (e.geminiRun1.rc == 0) = true
  · simp only [h1, if_true]
  · by_cases h2 : containsUnknownFlag e.geminiRun1.out = true
    · simp only [h1, h2, if_true, if_false, Bool.false_eq_true]
    · simp only [h1, h2, if_true, if_false, Bool.false_eq_true]

/-- Claim C3: for each agent, when the last attempt's return code is
non-zero the recorded verdict is UNCLEAR regardless of the output text, and
the output text is parsed only when the return code is zero. -/
theorem C3_nonzero_rc_forces_unclear :
    ∀ (e : Env) (prompt : String),
      (e.codexFound = true → e.codexRun.rc ≠ 0 →
        (codexRecord e prompt).verdict = "UNCLEAR") ∧
      (e.codexFound = true → e.codexRun.rc = 0 →
        (codexRecord e prompt).verdict = _parse_verdict e.codexRun.out) ∧
      (e.geminiFound = true → (geminiPhase e prompt).rc ≠ 0 →
        (geminiRecord e prompt).verdict = "UNCLEAR") ∧
      (e.geminiFound = true → (geminiPhase e prompt).rc = 0 →
        (geminiRecord e prompt).verdict
          = _parse_verdict (geminiPhase e prompt).out) ∧
      (e.claudeFound = true → e.claudeRun.rc ≠ 0 →
        (claudeRecord e prompt).verdict = "UNCLEAR") ∧
      (e.claudeFound = true → e.claudeRun.rc = 0 →
        (claudeRecord e prompt).verdict = _parse_verdict e.claudeRun.out) := by
  intro e prompt
  refine ⟨?_, ?_, ?_, ?_, ?_, ?_⟩
  · intro hf hrc
    simp only [codexRecord, hf, if_true]
    simp [hrc]
  · intro hf hrc
    simp only [codexRecord, hf, if_true]
    simp [hrc]
  · intro hf hrc
    simp only [geminiRecord, hf, if_true]
    rw [geminiPhase_verdict]
    simp [hrc]
  · intro hf hrc
    simp only [geminiRecord, hf, if_true]
    rw [geminiPhase_verdict]
    simp [hrc]
  · intro hf hrc
    simp only [claudeRecord, hf, if_true]
    simp [hrc]
  · intro hf hrc
    simp only [claudeRecord, hf, if_true]
    simp [hrc]

/-- Closed instance of C3: in an environment where every attempt exits with
return code 1 while printing `VERDICT: PASS`, each recorded verdict is
UNCLEAR. -/
theorem C3_nonzero_rc_forces_unclear_witness :
    (codexRecord envAllCrash "p").verdict = "UNCLEAR" ∧
    (geminiRecord envAllCrash "p").verdict = "UNCLEAR" ∧
    (claudeRecord envAllCrash "p").verdict = "UNCLEAR" :=
  ⟨(C3_nonzero_rc_forces_unclear envAllCrash "p").1 rfl (by decide),
   (C3_nonzero_rc_forces_unclear envAllCrash "p").2.2.1 rfl (by decide),
   (C3_nonzero_rc_forces_unclear envAllCrash "p").2.2.2.2.1 rfl (by decide)⟩

/-- Claim C4: the exit status is 0 when the overall verdict is PASS, 1 when
it is FAIL and 3 when it is UNCLEAR; when the plan/document file does not
exist, `main` stops with exit status 2 — distinct from 0, 1 and 3 — before
any agent record is produced. -/
theorem C4_exit_status_mapping :
    ∀ e : Env,
      (e.fileExists = false →
        (main e).exitCode = 2 ∧ (main e).records = []) ∧
      (e.fileExists = true →
        (_overall (mainVerdicts e) = "PASS" → (main e).exitCode = 0) ∧
        (_overall (mainVerdicts e) = "FAIL" → (main e).exitCode = 1) ∧
        (_overall (mainVerdicts e) = "UNCLEAR" → (main e).exitCode = 3)) ∧
      ((2 : Int) ≠ 0 ∧ (2 : Int) ≠ 1 ∧ (2 : Int) ≠ 3) := by
  intro e
  refine ⟨?_, ?_, by decide, by decide, by decide⟩
  · intro h
    simp [main, h]
  · intro h
    refine ⟨?_, ?_, ?_⟩ <;> intro hov <;>
      simp [main, h, exitFor, hov]

/-- Closed instance of C4: the missing-file abort exits with 2 and no
records, and an all-PASS run exits with 0. -/
theorem C4_exit_status_mapping_witness :
    ((main envMissingFile).exitCode = 2 ∧ (main envMissingFile).records = [])
      ∧ (main envAllPass).exitCode = 0 :=
  ⟨(C4_exit_status_mapping envMissingFile).1 rfl,
   ((C4_exit_status_mapping envAllPass).2.1 rfl).1 (by decide)⟩

/-- Claim C5: gemini makes a second attempt exactly when the first attempt
exits non-zero with output containing an unknown-flag substring
(case-insensitively); otherwise the loop stops after the first attempt, and
at most two attempts are ever made. -/
theorem C5_gemini_retry_rule :
    ∀ (e : Env) (prompt : String), e.geminiFound = true →
      (geminiRecord e prompt = geminiPhase e prompt) ∧
      ((geminiPhase e prompt).attempts = 2 ↔
        (e.geminiRun1.rc ≠ 0 ∧ containsUnknownFlag e.geminiRun1.out = true)) ∧
      (geminiPhase e prompt).attempts ≤ 2 := by
  intro e prompt hf
  have hatt : (geminiPhase e prompt).attempts
      = if e.geminiRun1.rc ≠ 0 ∧ containsUnknownFlag e.geminiRun1.out = true
        then 2 else 1 := by
    unfold geminiPhase
    by_cases h1 : (e.geminiRun1.rc == 0) = true
    · have h0 : e.geminiRun1.rc = 0 := by simpa using h1
      simp [h1, h0]
    · by_cases h2 : containsUnknownFlag e.geminiRun1.out = true
      · have h0 : e.geminiRun1.rc ≠ 0 := by simpa using h1
        simp [h1, h2, h0]
      · simp [h1, h2]
  refine ⟨by simp [geminiRecord, hf], ?_, ?_⟩
  · rw [hatt]
    by_cases hc : e.geminiRun1.rc ≠ 0
        ∧ containsUnknownFlag e.geminiRun1.out = true
    · simp [hc]
    · simp [hc]
  · rw [hatt]
    by_cases hc : e.geminiRun1.rc ≠ 0
        ∧ containsUnknownFlag e.geminiRun1.out = true
    · simp [hc]
    · simp [hc]

/-- Closed instance of C5: with an unknown-flag first failure the fallback
attempt happens (2 attempts); retries are bounded by 2. -/
theorem C5_gemini_retry_rule_witness :
    (geminiPhase envGeminiRetry "p").attempts = 2 ∧
    (geminiPhase envGeminiRetry "p").attempts ≤ 2 :=
  ⟨((C5_gemini_retry_rule envGeminiRetry "p" rfl).2.1).mpr
      ⟨by decide, by decide⟩,
   (C5_gemini_retry_rule envGeminiRetry "p" rfl).2.2⟩

/-- Claim C6 evaluated on the code: in a run where the first gemini attempt
fails with an unknown-flag error and the fallback attempt is made, the final
transcript is only the second attempt's command header and output — the
retry separator and the first attempt's output are gone, because
`run_streaming` reopens the transcript file with mode `"w"` (truncating it)
for the second attempt right after the separator was appended. -/
theorem C6_retry_truncates_transcript :
    (geminiPhase envGeminiRetry "p").attempts = 2 ∧
    (geminiPhase envGeminiRetry "p").transcript
      = runTranscript ["gemini", "--yolo", "p"] "VERDICT: PASS\n" ∧
    hasSubstr retrySeparator.data
      (geminiPhase envGeminiRetry "p").transcript.data = false ∧
    hasSubstr "unknown option".data
      (geminiPhase envGeminiRetry "p").transcript.data = false := by
  refine ⟨by decide, by decide, by decide, by decide⟩

/-- Claim C7: every orchestrator run produces exactly one record per
configured agent, in the fixed order codex, gemini, claude; when an agent's
executable is absent its record has verdict UNCLEAR, return code 127,
duration 0, and a transcript containing a "not found" line. -/
theorem C7_one_record_per_agent :
    ∀ e : Env,
      (mainRecords e).map Prod.fst = ["codex", "gemini", "claude"] ∧
      (e.codexFound = false →
        let r := codexRecord e (build_prompt e.filePath e.chunk)
        r.rc = 127 ∧ r.dur = 0 ∧ r.verdict = "UNCLEAR" ∧
          hasSubstr "not found".data r.transcript.data = true) ∧
      (e.geminiFound = false →
        let r := geminiRecord e (build_prompt e.filePath e.chunk)
        r.rc = 127 ∧ r.dur = 0 ∧ r.verdict = "UNCLEAR" ∧
          hasSubstr "not found".data r.transcript.data = true) ∧
      (e.claudeFound = false →
        let r := claudeRecord e (build_prompt e.filePath e.chunk)
        r.rc = 127 ∧ r.dur = 0 ∧ r.verdict = "UNCLEAR" ∧
          hasSubstr "not found".data r.transcript.data = true) := by
  intro e
  refine ⟨by simp [mainRecords], ?_, ?_, ?_⟩
  · intro h
    simp only [codexRecord, h, Bool.false_eq_true, if_false]
    exact ⟨trivial, trivial, trivial, by decide⟩
  · intro h
    simp only [geminiRecord, h, Bool.false_eq_true, if_false]
    exact ⟨trivial, trivial, trivial, by decide⟩
  · intro h
    simp only [claudeRecord, h, Bool.false_eq_true, if_false]
    exact ⟨trivial, trivial, trivial, by decide⟩

/-- Closed instance of C7 in the environment where no agent executable is on
the search path. -/
theorem C7_one_record_per_agent_witness :
    (mainRecords envNoneFound).map Prod.fst = ["codex", "gemini", "claude"] ∧
    (codexRecord envNoneFound
        (build_prompt envNoneFound.filePath envNoneFound.chunk)).rc = 127 ∧
    (geminiRecord envNoneFound
        (build_prompt envNoneFound.filePath envNoneFound.chunk)).verdict
      = "UNCLEAR" ∧
    (claudeRecord envNoneFound
        (build_prompt envNoneFound.filePath envNoneFound.chunk)).dur = 0 :=
  ⟨(C7_one_record_per_agent envNoneFound).1,
   ((C7_one_record_per_agent envNoneFound).2.1 rfl).1,
   ((C7_one_record_per_agent envNoneFound).2.2.1 rfl).2.2.1,
   ((C7_one_record_per_agent envNoneFound).2.2.2 rfl).2.1⟩

/-- Counterexample to claim C8 as stated: `run_streaming` does raise on
inputs in the claim's scope.  A launch failure other than
`FileNotFoundError` (e.g. `PermissionError`, uncaught at line 127)
propagates; so does an `OSError` from the transcript-path `mkdir` (line
106, before any `try`); so does one from the timeout-notice write inside
the `TimeoutExpired` handler (line 141). -/
theorem C8_counterexample :
    run_streaming "codex" ["codex"] fsAllOk Launch.raiseOther
        = Except.error PyExn.permissionError ∧
    run_streaming "gemini" ["gemini"] fsMkdirFails Launch.notFound
        = Except.error PyExn.osError ∧
    run_streaming "claude" ["claude"] fsHandlerWriteFails
        (Launch.ok procHangs)
        = Except.error PyExn.osError :=
  ⟨rfl, rfl, rfl⟩

/-- Claim C8 as amended: `run_streaming` converts into the returned
`(return_code, output, duration)` triple exactly the failure modes its
handlers cover — provided the transcript-file operations (parent directory
creation, open, writes) succeed and any launch failure is
`FileNotFoundError` (missing executable), every behaviour (missing
executable, normal completion, timeout with graceful termination, timeout
whose termination handler itself fails) yields an ordinary triple and no
exception escapes.  Other launch exceptions and transcript `OSError`s do
propagate (see the counterexample). -/
theorem C8_run_streaming_handled_failures :
    ∀ (label : String) (cmd : List String) (fs : FsSpec) (l : Launch),
      fs.mkdirRaises = false → fs.openRaises = false →
      fs.headerWriteRaises = false → fs.handlerWriteRaises = false →
      l ≠ Launch.raiseOther →
      ∃ r : Int × String × Rat,
        run_streaming label cmd fs l = Except.ok r := by
  intro label cmd fs l hm ho hh hw hl
  cases l with
  | notFound =>
    have hres : run_streaming label cmd fs Launch.notFound
        = Except.ok (127,
            label ++ ": command not found: " ++ cmd.headD "" ++ "\n", 0) := by
      simp [run_streaming, popen, hm, ho, hh, hw]
    exact ⟨_, hres⟩
  | raiseOther => exact absurd rfl hl
  | ok p =>
    rcases p with ⟨out, dur, waitRc, termRc, killRc⟩
    cases waitRc with
    | some rc =>
      have hres : run_streaming label cmd fs
          (Launch.ok ⟨out, dur, some rc, termRc, killRc⟩)
          = Except.ok (rc, out, dur) := by
        simp [run_streaming, popen, waitWithTimeout, hm, ho, hh, hw]
      exact ⟨_, hres⟩
    | none =>
      cases termRc with
      | some rc =>
        have hres : run_streaming label cmd fs
            (Launch.ok ⟨out, dur, none, some rc, killRc⟩)
            = Except.ok (rc, out, dur) := by
          simp [run_streaming, popen, waitWithTimeout, terminateAndWait, hm,
            ho, hh, hw]
        exact ⟨_, hres⟩
      | none =>
        have hres : run_streaming label cmd fs
            (Launch.ok ⟨out, dur, none, none, killRc⟩)
            = Except.ok (killRc, out, dur) := by
          simp [run_streaming, popen, waitWithTimeout, terminateAndWait, hm,
            ho, hh, hw]
        exact ⟨_, hres⟩

/-- Closed instance of the amended C8, discharging every hypothesis at a
concrete input: a missing executable with all transcript operations
succeeding yields an ordinary triple. -/
theorem C8_run_streaming_handled_failures_witness :
    ∃ r : Int × String × Rat,
      run_streaming "codex" ["codex"] fsAllOk Launch.notFound
        = Except.ok r :=
  C8_run_streaming_handled_failures "codex" ["codex"] fsAllOk Launch.notFound
    rfl rfl rfl rfl (by decide)

/-- Counterexample to claim C9 as stated: for the claude agent the rendered
prompt is not the command's final argument (the final argument is the
`--tools` value). -/
theorem C9_counterexample :
    (claudeCmd "claude" (build_prompt "plan.md" 1)).getLast?
      ≠ some (build_prompt "plan.md" 1) := by
  decide

/-- Claim C9 as amended: for codex and for both gemini candidate
invocations the command is fixed flags plus the rendered prompt as the
final (trailing positional) argument; for claude the prompt is instead
passed as the value of the `-p` flag, and the command's final argument is
the `--tools` value `Bash,Read`. -/
theorem C9_amended_command_shapes :
    ∀ (codex gemini claude prompt : String),
      (codexCmd codex prompt).getLast? = some prompt ∧
      (_gemini_cmd gemini prompt).map (fun c => c.getLast?)
        = [some prompt, some prompt] ∧
      (claudeCmd claude prompt)[1]? = some "-p" ∧
      (claudeCmd claude prompt)[2]? = some prompt ∧
      (claudeCmd claude prompt).getLast? = some "Bash,Read" := by
  intro codex gemini claude prompt
  refine ⟨rfl, rfl, rfl, rfl, rfl⟩

end VerifyWorkChunk
